import Mathlib

/-!
Shallow embedding of the account-provisioning core of the `biedbot`
repository (files `src/api.rs`, `src/main.rs`, `src/db.rs`) and proofs
about the claims of its specification.

Rust strings are modelled as `List Char`; the fallible Rust functions
returning `Result<_, ApiError>` are modelled as `Except ApiError _`.
All network transport, JSON decoding and the sled database are external
collaborators: the embedded functions take the already-decoded backend
response data as explicit arguments, exactly at the point where
`api.rs` starts interpreting it.
-/

namespace Bied

/-- Rust `String` / `&str`, modelled as its list of characters. -/
abbrev Str := List Char

/-- `api.rs`: `pub struct ApiError(String)` — all API failures carry a
single message string. -/
structure ApiError where
  msg : Str
deriving DecidableEq

/-- One step of the Rust regex `crf=([^;]+)` (from `extract_csrf_token`
in `api.rs`): does a match start at the head of `s`?  It does exactly
when the four characters `crf=` sit at the head and are followed by at
least one character other than `;` (the capture group `[^;]+` needs a
non-empty run of non-`;` characters). -/
def crfMatchAt : Str → Bool
  | a :: b :: c :: d :: e :: _ =>
    (a == 'c') && (b == 'r') && (c == 'f') && (d == '=') && (e != ';')
  | _ => false

/-- `api.rs` `extract_csrf_token`: the regex `crf=([^;]+)` is applied to
the input and, at the leftmost position where it matches, the whole
match (`.get(0)`) is taken and its first four characters (`crf=`) are
skipped (`.chars().skip(4)`), leaving the capture: the maximal run of
non-`;` characters following `crf=`.  No match anywhere yields `None`.
-/
def extract_csrf_token : Str → Option Str
  | [] => none
  | a :: t =>
    if crfMatchAt (a :: t) then some (((a :: t).drop 4).takeWhile (fun x => x != ';'))
    else extract_csrf_token t

instance {ε α : Type} [DecidableEq ε] [DecidableEq α] : DecidableEq (Except ε α) := fun x y =>
  match x, y with
  | .ok a, .ok b =>
    if h : a = b then isTrue (by rw [h]) else isFalse (fun hh => h (Except.ok.inj hh))
  | .error a, .error b =>
    if h : a = b then isTrue (by rw [h]) else isFalse (fun hh => h (Except.error.inj hh))
  | .ok _, .error _ => isFalse (fun hh => Except.noConfusion hh)
  | .error _, .ok _ => isFalse (fun hh => Except.noConfusion hh)

/-- Value of an ASCII hex digit, `none` otherwise (the digit classes the
`percent_encoding` crate accepts inside a `%XY` escape). -/
def hexVal (c : Char) : Option Nat :=
  if '0' ≤ c ∧ c ≤ '9' then some (c.toNat - 48)
  else if 'A' ≤ c ∧ c ≤ 'F' then some (c.toNat - 55)
  else if 'a' ≤ c ∧ c ≤ 'f' then some (c.toNat - 87)
  else none

/-- `percent_encoding::percent_decode_str(..).decode_utf8_lossy()` as
used by `login` in `api.rs`, restricted to the ASCII inputs/outputs the
program feeds it: a `%` followed by two hex digits becomes the encoded
byte (one character, since the values involved are ASCII); a `%` not
followed by two hex digits is passed through unchanged and scanning
resumes at the next character. -/
def percentDecode : Str → Str
  | [] => []
  | '%' :: a :: b :: rest =>
    match hexVal a, hexVal b with
    | some x, some y => Char.ofNat (16 * x + y) :: percentDecode rest
    | _, _ => '%' :: percentDecode (a :: b :: rest)
  | c :: rest => c :: percentDecode rest

/-- `cookie::Cookie::from_str` as used by `login` in `api.rs`, for the
plain `name=value[; attributes]` header shapes this program handles:
everything up to the first `;` must contain a `=`; the cookie name is
the trimmed text before the first `=` and must be non-empty, the value
is the trimmed text after it.  A missing `=` or an empty name is a
parse error, which `api.rs` converts to an `ApiError` carrying the
debug text of the `cookie::ParseError` variant.  (Quoted-value
unwrapping is elided: no input of this program carries quotes.) -/
def parseCookie (s : Str) : Except ApiError (Str × Str) :=
  let pair := s.takeWhile (fun c => c != ';')
  if pair.contains '=' then
    let name := ((pair.takeWhile (fun c => c != '=')).dropWhile Char.isWhitespace).reverse.dropWhile Char.isWhitespace |>.reverse
    let value := (((pair.dropWhile (fun c => c != '=')).drop 1).dropWhile Char.isWhitespace).reverse.dropWhile Char.isWhitespace |>.reverse
    if name = [] then .error ⟨"EmptyName".toList⟩ else .ok (name, value)
  else .error ⟨"MissingPair".toList⟩

/-- Does the header string start with the given cookie name?  Models
Rust's `val.starts_with(name)` from the `set-cookie` loop of `login`. -/
def startsWith (s pat : Str) : Bool := s.take pat.length == pat

/-- The first designated session-cookie name of `login` in `api.rs`. -/
def nr1 : Str := "nr1Users".toList

/-- The second designated session-cookie name of `login` in `api.rs`. -/
def nr2 : Str := "nr2Users".toList

/-- The `set-cookie` scanning loop of `login` in `api.rs`: every header
is visited in order, and each header starting with `nr1Users`
(respectively, `nr2Users`) overwrites the `u1` (respectively, `u2`)
accumulator, so the value retained for each name is its final
occurrence. -/
def scanCookies (acc1 acc2 : Option Str) : List Str → Option Str × Option Str
  | [] => (acc1, acc2)
  | v :: rest =>
    if startsWith v nr1 then scanCookies (some v) acc2 rest
    else if startsWith v nr2 then scanCookies acc1 (some v) rest
    else scanCookies acc1 acc2 rest

/-- The last element of the list satisfying `p`, if any. -/
def lastMatch (p : Str → Bool) : List Str → Option Str
  | [] => none
  | v :: rest =>
    match lastMatch p rest with
    | some w => some w
    | none => if p v then some v else none

/-- `api.rs` `AuthData`: the two session-cookie values plus the CSRF
token attached to every authenticated request. -/
structure AuthData where
  users1 : Str
  users2 : Str
  csrf_token : Str
deriving DecidableEq

/-- `api.rs` `NewCustomerData`: identity fields of the login JSON body. -/
structure NewCustomerData where
  card_number : Str
  customer_external_id : Str
deriving DecidableEq

/-- `api.rs` `LoginResponce`: the decoded JSON body of a login response. -/
structure LoginResponce where
  new_customer : NewCustomerData
  customer_token : Str
deriving DecidableEq

/-- `api.rs` `AuthenticatedUser`: the account record a successful login
produces. -/
structure AuthenticatedUser where
  phone_number : Str
  auth_token : Str
  card_number : Str
  external_id : Str
  auth : AuthData
deriving DecidableEq

/-- The response-interpretation half of `BiedApi::login` in `api.rs`
(the request emission, transport and JSON decoding are external): given
the `set-cookie` header values of the response and its decoded JSON
body, scan the headers for the two session cookies (`ApiError("")` if
either is absent), parse each retained header as a cookie,
percent-decode the second cookie's value and run `extract_csrf_token`
on it (`ApiError("can't find the csrf token")` if it yields nothing),
and assemble the `AuthenticatedUser`. -/
def login (phone_number : Str) (headers : List Str) (body : LoginResponce) :
    Except ApiError AuthenticatedUser :=
  match scanCookies none none headers with
  | (none, _) => .error ⟨[]⟩
  | (some _, none) => .error ⟨[]⟩
  | (some h1, some h2) =>
    match parseCookie h1 with
    | .error e => .error e
    | .ok users1 =>
      match parseCookie h2 with
      | .error e => .error e
      | .ok users2 =>
        match extract_csrf_token (percentDecode users2.2) with
        | none => .error ⟨"can't find the csrf token".toList⟩
        | some csrf_token =>
          .ok { phone_number := phone_number
                auth_token := body.customer_token
                card_number := body.new_customer.card_number
                external_id := body.new_customer.customer_external_id
                auth := { users1 := users1.2, users2 := users2.2, csrf_token := csrf_token } }

/-- `api.rs` `NextStep`. -/
inductive NextStep where
  | NewAccount
  | AccountExist
deriving DecidableEq

/-- The response-interpretation half of `BiedApi::calculate_next_step`
in `api.rs`: the backend's `NextStep` string field is matched against
`"NewAccount"` (new account), `"AccountExist"` or `"Login"` (existing
account); any other value is the error
`ApiError("Unknown next step - <value>")`. -/
def calculate_next_step (next_step : Str) : Except ApiError NextStep :=
  if next_step = "NewAccount".toList then .ok .NewAccount
  else if next_step = "AccountExist".toList then .ok .AccountExist
  else if next_step = "Login".toList then .ok .AccountExist
  else .error ⟨"Unknown next step - ".toList ++ next_step⟩

/-- `api.rs` `SmsVerificationResponce`: the decoded JSON body of an SMS
request response (`blocked_in_minutes` is an `i32`, modelled as `Int`).
-/
structure SmsVerificationResponce where
  error_message : Str
  is_sms_sent : Bool
  is_blocked : Bool
  blocked_in_minutes : Int
deriving DecidableEq

/-- The decimal rendering of an `Int`, as Rust's `{}` formatting of an
`i32` produces. -/
def intStr (n : Int) : Str := (toString n).toList

/-- The response-interpretation half of `BiedApi::send_sms_code` in
`api.rs`: a positive `blocked_in_minutes` fails first with the timed
block message, then a set `is_blocked` flag fails with the indefinite
block message, then an unsent SMS fails with the send-failure message
carrying the backend's `error_message`; otherwise the call succeeds. -/
def send_sms_code (r : SmsVerificationResponce) : Except ApiError Unit :=
  if r.blocked_in_minutes > 0 then
    .error ⟨"This number is blocked for ".toList ++ intStr r.blocked_in_minutes ++ " minutes!".toList⟩
  else if r.is_blocked then .error ⟨"This number is blocked!".toList⟩
  else if !r.is_sms_sent then .error ⟨"SMS not sent! Error: ".toList ++ r.error_message⟩
  else .ok ()

/-- `main.rs` `State`: the per-conversation dialogue state (`Start` is
the `Idle` state of the spec; `teloxide`'s `dialogue.exit()` resets to
this default). -/
inductive State where
  | Start
  | ReceiveSmsCode (title : Str) (phone_number : Str)
  | ReceiveTitle (title : Str) (phone_number : Str) (sms_code : Str)
deriving DecidableEq

/-- The external sled-backed account store of `db.rs`, modelled as an
association list from titles to account records. -/
abbrev Store := List (Str × AuthenticatedUser)

/-- The key-overwriting write `sled::Tree::insert` performs for
`BiedStore::insert_account` in `db.rs`. -/
def storeWrite (store : Store) (title : Str) (user : AuthenticatedUser) : Store :=
  if store.any (fun kv => kv.1 == title) then
    store.map (fun kv => if kv.1 == title then (title, user) else kv)
  else store ++ [(title, user)]

/-- `db.rs` `StoreError(String)`. -/
structure StoreError where
  msg : Str
deriving DecidableEq

/-- `db.rs` `BiedStore::insert_account`: a sled insert under the title
key; it overwrites any existing record and only fails on external
database I/O errors, which are outside this model, so here it always
returns `Ok`. -/
def insert_account (store : Store) (title : Str) (user : AuthenticatedUser) :
    Except StoreError Store :=
  .ok (storeWrite store title user)

/-- Rust's derived `Debug` rendering of `ApiError(msg)`, as interpolated
by the handlers' `{:?}` format specifiers (escaping of quotes inside
`msg` is elided: no message of this program contains one). -/
def apiErrorDebug (e : ApiError) : Str :=
  "ApiError(\"".toList ++ e.msg ++ "\")".toList

/-- Result of one conversation-event handler of `main.rs`: either a
normal return carrying the messages sent to the chat, the dialogue
state left behind, and the account store contents — or a process panic
(from `panic!` or `.unwrap()`), carrying the offending error's message.
-/
inductive Outcome where
  | done (messages : List Str) (state : State) (store : Store)
  | panicked (msg : Str)
deriving DecidableEq

/-- `main.rs` `add_acconut` (sic): the `/add title phone` handler,
reachable only in `State::Start`.  It requests an SMS code; on success
it prompts for the code and moves to `ReceiveSmsCode{title, phone}`,
on failure it reports the error and exits the dialogue (back to
`Start`).  `smsResult` is the outcome of the `send_sms_code` call. -/
def add_acconut (title phone_number : Str) (smsResult : Except ApiError Unit) :
    List Str × State :=
  match smsResult with
  | .ok _ =>
    ([ "Creating accont ".toList ++ title ++ ". Sending sms code to ".toList
        ++ phone_number ++ "...\nWhat is it:".toList ],
      .ReceiveSmsCode title phone_number)
  | .error e =>
    ([ "Error sending sms message:".toList ++ apiErrorDebug e ], .Start)

/-- `main.rs` `receive_sms_code`: the handler for a message arriving in
`State::ReceiveSmsCode{title, phone}`.  A non-text message re-prompts.
A text message (the SMS code) triggers `calculate_next_step`; on
`NewAccount` the dialogue moves to `ReceiveTitle`, on `AccountExist`
the handler calls `login` and `.unwrap()`s it — panicking on a login
error — then inserts the account under `title` (on an insert error it
reports and stays put); a next-step error is reported without leaving
the state.  `next_step` is the backend's discriminator string, and
`headers`/`body` are the login response the backend would return. -/
def receive_sms_code (title phone_number : Str) (text : Option Str)
    (next_step : Str) (headers : List Str) (body : LoginResponce)
    (store : Store) : Outcome :=
  match text with
  | none => .done ["Please, send me the sms code.".toList] (.ReceiveSmsCode title phone_number) store
  | some sms_code =>
    match calculate_next_step next_step with
    | .ok .NewAccount =>
      .done ["This is a new account, what will be it's name:".toList]
        (.ReceiveTitle title phone_number sms_code) store
    | .ok .AccountExist =>
      match login phone_number headers body with
      | .error e => .panicked e.msg
      | .ok user =>
        match insert_account store title user with
        | .ok store2 =>
          .done ["Added user ".toList ++ title ++ " with phone number ".toList
                  ++ phone_number ++ "!".toList] .Start store2
        | .error e =>
          .done ["Error saving account: ".toList ++ "StoreError(\"".toList ++ e.msg ++ "\")".toList]
            (.ReceiveSmsCode title phone_number) store
    | .error e =>
      .done ["Error logging in:".toList ++ apiErrorDebug e] (.ReceiveSmsCode title phone_number) store

/-- `main.rs` `recive_title` (sic): the handler for a message arriving
in `State::ReceiveTitle{title, phone, sms_code}`.  A non-text message
re-prompts.  A text message (the display name) triggers `register`; on
a register error the handler `panic!`s; on success it reports, calls
`login` and `.unwrap()`s it — panicking on a login error — then
`.unwrap()`s the store insert and exits the dialogue.  `registerResult`
is the outcome of the register call, `headers`/`body` the subsequent
login response. -/
def recive_title (title phone_number sms_code : Str) (text : Option Str)
    (registerResult : Except ApiError Unit) (headers : List Str)
    (body : LoginResponce) (store : Store) : Outcome :=
  match text with
  | none => .done ["Please, send me your full name.".toList] (.ReceiveTitle title phone_number sms_code) store
  | some name =>
    match registerResult with
    | .error e => .panicked e.msg
    | .ok _ =>
      match login phone_number headers body with
      | .error e => .panicked e.msg
      | .ok user =>
        match insert_account store title user with
        | .error e => .panicked e.msg
        | .ok store2 =>
          .done ["registered ".toList ++ name ++ " succesfully.".toList] .Start store2

/-- `main.rs` `cancel`: the `/cancel` handler, reachable from every
dialogue state; it sends a confirmation and exits the dialogue,
resetting the state to the default `Start`.  It never fails and leaves
the store untouched. -/
def cancel (_s : State) : List Str × State :=
  (["Cancelling the dialogue.".toList], .Start)

/-- A fixed well-formed login JSON body, used as the concrete input of
several theorems below. -/
def bodyStub : LoginResponce :=
  { new_customer := { card_number := "c".toList, customer_external_id := "e".toList },
    customer_token := "t".toList }

/-- A maximal `crf=<value>` fragment inside `s`: the text `crf=` occurs
(after some prefix `pre`), followed by a non-empty value `v` free of
`;`, and the value runs until a `;` or the end of the string. -/
def IsCrfFragment (s pre v post : Str) : Prop :=
  s = pre ++ "crf=".toList ++ v ++ post ∧ v ≠ [] ∧ (∀ c ∈ v, c ≠ ';') ∧
    (post = [] ∨ ∃ u, post = ';' :: u)

/-- `s` contains some maximal `crf=<value>` fragment. -/
def HasCrfFragment (s : Str) : Prop := ∃ pre v post, IsCrfFragment s pre v post

theorem crfMatchAt_iff {s : Str} :
    crfMatchAt s = true ↔ ∃ c rest, s = 'c' :: 'r' :: 'f' :: '=' :: c :: rest ∧ c ≠ ';' := by
  rcases s with _ | ⟨a, _ | ⟨b, _ | ⟨c, _ | ⟨d, _ | ⟨e, rest⟩⟩⟩⟩⟩ <;> simp [crfMatchAt]
  aesop

theorem extract_cons (a : Char) (t : Str) :
    extract_csrf_token (a :: t) =
      if crfMatchAt (a :: t) then some (((a :: t).drop 4).takeWhile (fun x => x != ';'))
      else extract_csrf_token t := rfl

theorem dropWhileNeSemi (l : Str) :
    l.dropWhile (fun x => x != ';') = [] ∨
      ∃ u, l.dropWhile (fun x => x != ';') = ';' :: u := by
  induction l with
  | nil => exact Or.inl rfl
  | cons x xs ih =>
    by_cases hx : (x != ';') = true
    · simpa [List.dropWhile, hx] using ih
    · have hx' : x = ';' := by simpa using hx
      subst hx'
      exact Or.inr ⟨xs, by simp [List.dropWhile]⟩

theorem frag_of_extract_some :
    ∀ {s w : Str}, extract_csrf_token s = some w → ∃ pre post, IsCrfFragment s pre w post := by
  intro s
  induction s with
  | nil => intro w h; simp [extract_csrf_token] at h
  | cons a t ih =>
    intro w h
    rw [extract_cons] at h
    by_cases hm : crfMatchAt (a :: t) = true
    · rw [if_pos hm] at h
      rcases crfMatchAt_iff.mp hm with ⟨e, rest, hshape, he⟩
      have hw : w = ((a :: t).drop 4).takeWhile (fun x => x != ';') := by
        exact (Option.some.inj h).symm
      rw [hshape] at hw ⊢
      have hdrop : (('c' :: 'r' :: 'f' :: '=' :: e :: rest : Str).drop 4) = e :: rest := rfl
      rw [hdrop] at hw
      refine ⟨[], (e :: rest).dropWhile (fun x => x != ';'), ?_, ?_, ?_, ?_⟩
      · rw [hw]
        simp only [List.nil_append, List.append_assoc, List.takeWhile_append_dropWhile]
        rfl
      · have hpe : (e != ';') = true := by simpa using he
        rw [hw]
        simp [List.takeWhile, hpe]
      · intro c hc
        rw [hw] at hc
        have := List.mem_takeWhile_imp hc
        simpa using this
      · exact dropWhileNeSemi (e :: rest)
    · rw [if_neg hm] at h
      rcases ih h with ⟨pre, post, hfrag⟩
      exact ⟨a :: pre, post, by rw [hfrag.1]; rfl, hfrag.2.1, hfrag.2.2.1, hfrag.2.2.2⟩

theorem extract_isSome_of_matchAt :
    ∀ {s : Str}, (∃ i, crfMatchAt (s.drop i) = true) → (extract_csrf_token s).isSome = true := by
  intro s
  induction s with
  | nil => rintro ⟨i, hi⟩; simp [crfMatchAt] at hi
  | cons a t ih =>
    rintro ⟨i, hi⟩
    rw [extract_cons]
    by_cases hm : crfMatchAt (a :: t) = true
    · rw [if_pos hm]; rfl
    · rw [if_neg hm]
      apply ih
      cases i with
      | zero => exact absurd hi hm
      | succ j => exact ⟨j, by simpa using hi⟩

theorem matchAt_of_frag {s pre v post : Str} (h : IsCrfFragment s pre v post) :
    crfMatchAt (s.drop pre.length) = true := by
  rcases h with ⟨hs, hv, hsemi, _⟩
  rcases v with _ | ⟨c0, v'⟩
  · exact absurd rfl hv
  · have hc0 : c0 ≠ ';' := hsemi c0 (by simp)
    have hs' : s = pre ++ ("crf=".toList ++ ((c0 :: v') ++ post)) := by
      rw [hs]; simp [List.append_assoc]
    have hdrop : s.drop pre.length = "crf=".toList ++ ((c0 :: v') ++ post) := by
      rw [hs']; exact List.drop_left _ _
    rw [hdrop]
    exact crfMatchAt_iff.mpr ⟨c0, v' ++ post, rfl, hc0⟩

theorem extract_isSome_of_frag {s : Str} (h : HasCrfFragment s) :
    (extract_csrf_token s).isSome = true := by
  rcases h with ⟨pre, v, post, hfrag⟩
  exact extract_isSome_of_matchAt ⟨pre.length, matchAt_of_frag hfrag⟩

theorem extract_none_of_no_frag {s : Str} (h : ¬ HasCrfFragment s) :
    extract_csrf_token s = none := by
  cases he : extract_csrf_token s with
  | none => rfl
  | some w =>
    rcases frag_of_extract_some he with ⟨pre, post, hfrag⟩
    exact absurd ⟨pre, w, post, hfrag⟩ h

theorem extract_ne_nil {s w : Str} (h : extract_csrf_token s = some w) : w ≠ [] :=
  (frag_of_extract_some h).choose_spec.choose_spec.2.1

theorem startsWith_nr1_not_nr2 {v : Str} (h : startsWith v nr1 = true) :
    startsWith v nr2 = false := by
  by_contra hc
  have h2 : startsWith v nr2 = true := by
    cases hx : startsWith v nr2
    · exact absurd hx hc
    · rfl
  have e1 : v.take 8 = nr1 := by simpa [startsWith, nr1] using h
  have e2 : v.take 8 = nr2 := by simpa [startsWith, nr2] using h2
  rw [e1] at e2
  exact absurd e2 (by decide)

theorem scanCookies_eq (hs : List Str) :
    ∀ acc1 acc2, scanCookies acc1 acc2 hs =
      ((lastMatch (fun v => startsWith v nr1) hs).elim acc1 some,
        (lastMatch (fun v => startsWith v nr2) hs).elim acc2 some) := by
  induction hs with
  | nil => intro acc1 acc2; simp [scanCookies, lastMatch]
  | cons v rest ih =>
    intro acc1 acc2
    by_cases h1 : startsWith v nr1 = true
    · have h2 : startsWith v nr2 = false := startsWith_nr1_not_nr2 h1
      rw [show scanCookies acc1 acc2 (v :: rest) = scanCookies (some v) acc2 rest by
        simp [scanCookies, h1]]
      rw [ih (some v) acc2]
      cases hm1 : lastMatch (fun v => startsWith v nr1) rest <;>
        cases hm2 : lastMatch (fun v => startsWith v nr2) rest <;>
        simp [lastMatch, hm1, hm2, h1, h2]
    · have h1' : startsWith v nr1 = false := by
        cases hx : startsWith v nr1
        · rfl
        · exact absurd hx h1
      by_cases h2 : startsWith v nr2 = true
      · rw [show scanCookies acc1 acc2 (v :: rest) = scanCookies acc1 (some v) rest by
          simp [scanCookies, h1', h2]]
        rw [ih acc1 (some v)]
        cases hm1 : lastMatch (fun v => startsWith v nr1) rest <;>
          cases hm2 : lastMatch (fun v => startsWith v nr2) rest <;>
          simp [lastMatch, hm1, hm2, h1', h2]
      · have h2' : startsWith v nr2 = false := by
          cases hx : startsWith v nr2
          · rfl
          · exact absurd hx h2
        rw [show scanCookies acc1 acc2 (v :: rest) = scanCookies acc1 acc2 rest by
          simp [scanCookies, h1', h2']]
        rw [ih acc1 acc2]
        cases hm1 : lastMatch (fun v => startsWith v nr1) rest <;>
          cases hm2 : lastMatch (fun v => startsWith v nr2) rest <;>
          simp [lastMatch, hm1, hm2, h1', h2']

theorem scanCookies_none_none (hs : List Str) :
    scanCookies none none hs =
      (lastMatch (fun v => startsWith v nr1) hs,
        lastMatch (fun v => startsWith v nr2) hs) := by
  rw [scanCookies_eq]
  cases lastMatch (fun v => startsWith v nr1) hs <;>
    cases lastMatch (fun v => startsWith v nr2) hs <;> rfl

theorem login_missing_cookie {phone : Str} {headers : List Str} {body : LoginResponce}
    (h : lastMatch (fun v => startsWith v nr1) headers = none ∨
      lastMatch (fun v => startsWith v nr2) headers = none) :
    login phone headers body = .error ⟨[]⟩ := by
  unfold login
  rw [scanCookies_none_none]
  rcases h with h | h
  · rw [h]
  · rw [h]
    cases lastMatch (fun v => startsWith v nr1) headers <;> rfl

theorem login_csrf_from_extract {phone : Str} {headers : List Str} {body : LoginResponce}
    {u : AuthenticatedUser} (h : login phone headers body = .ok u) :
    extract_csrf_token (percentDecode u.auth.users2) = some u.auth.csrf_token := by
  unfold login at h
  split at h
  · exact Except.noConfusion h
  · exact Except.noConfusion h
  · rename_i h1 h2 hscan
    split at h
    · exact Except.noConfusion h
    · split at h
      · exact Except.noConfusion h
      · split at h
        · exact Except.noConfusion h
        · rename_i users1 _ users2 _ csrf hex
          have hu := Except.ok.inj h
          rw [← hu]
          exact hex

/-- C1: `extract_csrf_token` is a pure function such that, for every
input containing a maximal `crf=<value>` fragment (value running until
a `;` or end-of-string), it returns `some` of such a fragment's value —
wherever the fragment appears — and for every input containing no such
fragment it returns `none`; in particular on
`"foo=bar; crf=XYZ123; baz=qux"` it returns `some "XYZ123"` and on
`"no token here"` it returns `none`. -/
theorem claim_c1 :
    (∀ s pre v post, IsCrfFragment s pre v post → (extract_csrf_token s).isSome = true)
  ∧ (∀ s w, extract_csrf_token s = some w → ∃ pre post, IsCrfFragment s pre w post)
  ∧ (∀ s, ¬ HasCrfFragment s → extract_csrf_token s = none)
  ∧ extract_csrf_token ("foo=bar; crf=XYZ123; baz=qux".toList) = some ("XYZ123".toList)
  ∧ extract_csrf_token ("no token here".toList) = none := by
  refine ⟨?_, ?_, ?_, by decide, by decide⟩
  · intro s pre v post h
    exact extract_isSome_of_frag ⟨pre, v, post, h⟩
  · intro s w h
    exact frag_of_extract_some h
  · intro s h
    exact extract_none_of_no_frag h

/-- Witness for C1: the spec's own example input contains the fragment
`crf=XYZ123`, so extraction succeeds on it. -/
theorem claim_c1_witness :
    (extract_csrf_token ("foo=bar; crf=XYZ123; baz=qux".toList)).isSome = true :=
  claim_c1.1 ("foo=bar; crf=XYZ123; baz=qux".toList) "foo=bar; ".toList ("XYZ123".toList)
    "; baz=qux".toList ⟨by decide, by decide, by decide, Or.inr ⟨" baz=qux".toList, by decide⟩⟩

/-- Counterexample for C4: the backend discriminator `"Login"` — a
string other than the `"NewAccount"` and `"AccountExist"`
discriminators — does NOT fail with an unrecognized-step error, as the
claim requires for every other string value: it succeeds as
`AccountExist`. -/
theorem claim_c4_counterexample :
    calculate_next_step ("Login".toList) = .ok .AccountExist
  ∧ "Login".toList ≠ "AccountExist".toList ∧ "Login".toList ≠ "NewAccount".toList :=
  ⟨rfl, by decide, by decide⟩

/-- C4 amended: `calculate_next_step` returns exactly one of three
outcomes, determined solely by the backend's next-step string:
`NewAccount` for `"NewAccount"`, `AccountExist` for EITHER
`"AccountExist"` OR `"Login"`, and the failure
`Unknown next step - <value>` for every remaining string value; being a
total function into `Except`, it never yields both a success and a
failure. -/
theorem claim_c4_amended (s : Str) :
    (s = "NewAccount".toList → calculate_next_step s = .ok .NewAccount)
  ∧ (s = "AccountExist".toList ∨ s = "Login".toList →
      calculate_next_step s = .ok .AccountExist)
  ∧ (s ≠ "NewAccount".toList → s ≠ "AccountExist".toList → s ≠ "Login".toList →
      calculate_next_step s = .error ⟨"Unknown next step - ".toList ++ s⟩) := by
  refine ⟨?_, ?_, ?_⟩
  · intro h; subst h; rfl
  · rintro (h | h) <;> subst h <;> rfl
  · intro h1 h2 h3
    unfold calculate_next_step
    rw [if_neg h1, if_neg h2, if_neg h3]

/-- Witness for C4 amended: the `"Login"` discriminator is accepted as
an existing account. -/
theorem claim_c4_witness : calculate_next_step ("Login".toList) = .ok .AccountExist :=
  (claim_c4_amended ("Login".toList)).2.1 (Or.inr rfl)

/-- C5: for every backend response to the SMS request,
`send_sms_code` succeeds iff the SMS is reported sent, no block flag is
set and no positive block duration is reported; otherwise it reports
exactly one failure: the timed block when the duration is positive,
else the indefinite block when the flag is set, else the send failure
when the SMS is reported not sent. -/
theorem claim_c5 (r : SmsVerificationResponce) :
    (send_sms_code r = .ok () ↔
      r.is_sms_sent = true ∧ r.is_blocked = false ∧ ¬ r.blocked_in_minutes > 0)
  ∧ (r.blocked_in_minutes > 0 → send_sms_code r =
      .error ⟨"This number is blocked for ".toList ++ intStr r.blocked_in_minutes
        ++ " minutes!".toList⟩)
  ∧ (¬ r.blocked_in_minutes > 0 → r.is_blocked = true →
      send_sms_code r = .error ⟨"This number is blocked!".toList⟩)
  ∧ (¬ r.blocked_in_minutes > 0 → r.is_blocked = false → r.is_sms_sent = false →
      send_sms_code r = .error ⟨"SMS not sent! Error: ".toList ++ r.error_message⟩) := by
  by_cases hb : r.blocked_in_minutes > 0 <;>
    cases hbl : r.is_blocked <;> cases hs : r.is_sms_sent <;>
    simp [send_sms_code, hb, hbl, hs]

/-- Witness for C5: a response reporting a five-minute block fails with
the timed block message. -/
theorem claim_c5_witness :
    send_sms_code { error_message := [], is_sms_sent := false, is_blocked := false,
                    blocked_in_minutes := 5 } =
      .error ⟨"This number is blocked for ".toList ++ intStr 5 ++ " minutes!".toList⟩ :=
  (claim_c5 _).2.1 (by decide)

/-- C9: the `/cancel` handler yields `Start` (Idle) from every
conversation state; issuing it while already in `Start` keeps the state
`Start` (the handler never fails in this model — it only sends a
confirmation), and cancelling is idempotent. -/
theorem claim_c9 (s : State) :
    (cancel s).2 = State.Start
  ∧ (cancel State.Start).2 = State.Start
  ∧ cancel State.Start = (["Cancelling the dialogue.".toList], State.Start)
  ∧ cancel ((cancel s).2) = cancel s :=
  ⟨rfl, rfl, rfl, rfl⟩

/-- Counterexample for C10: in `"crf=;crf=x"` the (first occurrence of)
`crf=` is immediately followed by `;` — an empty value — yet
`extract_csrf_token` does not return `none`: the regex scan simply
moves on to the later occurrence `crf=x` and returns `some "x"`. -/
theorem claim_c10_counterexample :
    "crf=;crf=x".toList = "crf=".toList ++ ';' :: "crf=x".toList
  ∧ extract_csrf_token ("crf=;crf=x".toList) = some ("x".toList) :=
  ⟨rfl, by decide⟩

/-- C10 amended: `extract_csrf_token` never returns `some` of the empty
string; for every input in which EVERY occurrence of `crf=` is
immediately followed by `;` or by end-of-input, it returns `none`; and
every `csrf_token` produced by a successful `login` is non-empty. -/
theorem claim_c10_amended :
    (∀ s w, extract_csrf_token s = some w → w ≠ [])
  ∧ (∀ s : Str, (∀ pre rest, s = pre ++ "crf=".toList ++ rest →
        rest = [] ∨ ∃ u, rest = ';' :: u) → extract_csrf_token s = none)
  ∧ (∀ (phone : Str) (headers : List Str) (body : LoginResponce) (u : AuthenticatedUser),
      login phone headers body = .ok u → u.auth.csrf_token ≠ []) := by
  refine ⟨fun s w h => extract_ne_nil h, ?_, ?_⟩
  · intro s h
    cases he : extract_csrf_token s with
    | none => rfl
    | some w =>
      rcases frag_of_extract_some he with ⟨pre, post, hfrag⟩
      rcases hfrag with ⟨hs, hw, hsemi, _⟩
      rcases w with _ | ⟨c0, w'⟩
      · exact absurd rfl hw
      · have hs' : s = pre ++ "crf=".toList ++ ((c0 :: w') ++ post) := by
          rw [hs]; simp [List.append_assoc]
        rcases h pre ((c0 :: w') ++ post) hs' with hnil | ⟨u, hu⟩
        · exact absurd hnil (by simp)
        · have : c0 = ';' := by
            have := List.cons_append c0 w' post
            rw [this] at hu
            exact (List.cons.inj hu).1
          exact absurd this (hsemi c0 (by simp))
  · intro phone headers body u h
    exact extract_ne_nil (login_csrf_from_extract h)

/-- Witness for C10 amended: the token extracted from `"crf=A"` is the
non-empty `"A"`. -/
theorem claim_c10_witness :
    extract_csrf_token ("crf=A".toList) = some ("A".toList) ∧ "A".toList ≠ ([] : Str) :=
  ⟨by decide, claim_c10_amended.1 ("crf=A".toList) "A".toList (by decide)⟩

/-- C2: for every well-formed login JSON body, a `login` whose
`set-cookie` headers carry `nr1Users=abc` and
`nr2Users=%3Bcrf%3Dtok42%3B` percent-decodes the second cookie's value
(to `;crf=tok42;`), extracts `csrf_token = "tok42"`, and succeeds; and
in the `AccountExist` path of the conversation (after
`/add store +15551234` and the SMS code `"0000"`), the resulting
account record is written to the store under the caller-supplied title
`"store"`. -/
theorem claim_c2 (body : LoginResponce) (store : Store) :
    login ("+15551234".toList) ["nr1Users=abc".toList, "nr2Users=%3Bcrf%3Dtok42%3B".toList] body
      = .ok { phone_number := "+15551234".toList, auth_token := body.customer_token,
              card_number := body.new_customer.card_number,
              external_id := body.new_customer.customer_external_id,
              auth := { users1 := "abc".toList, users2 := "%3Bcrf%3Dtok42%3B".toList,
                        csrf_token := "tok42".toList } }
  ∧ add_acconut ("store".toList) "+15551234".toList (.ok ())
      = (["Creating accont store. Sending sms code to +15551234...\nWhat is it:".toList],
          .ReceiveSmsCode ("store".toList) "+15551234".toList)
  ∧ receive_sms_code ("store".toList) "+15551234".toList (some ("0000".toList))
      "AccountExist".toList ["nr1Users=abc".toList, "nr2Users=%3Bcrf%3Dtok42%3B".toList]
      body store
      = .done ["Added user store with phone number +15551234!".toList] .Start
          (storeWrite store ("store".toList)
            { phone_number := "+15551234".toList, auth_token := body.customer_token,
              card_number := body.new_customer.card_number,
              external_id := body.new_customer.customer_external_id,
              auth := { users1 := "abc".toList, users2 := "%3Bcrf%3Dtok42%3B".toList,
                        csrf_token := "tok42".toList } }) :=
  ⟨rfl, rfl, rfl⟩

/-- Counterexample for C3: with the duplicated header list
`[nr1Users=a, nr1Users=b, nr2Users=%3Bcrf%3Dtok%3B]`, `login` stores
`users1 = "b"` — the value of the LAST `nr1Users` occurrence — where
the claim requires the value `"a"` of the FIRST occurrence. -/
theorem claim_c3_counterexample :
    login ("p".toList)
        ["nr1Users=a".toList, "nr1Users=b".toList, "nr2Users=%3Bcrf%3Dtok%3B".toList] bodyStub
      = .ok { phone_number := "p".toList, auth_token := "t".toList,
              card_number := "c".toList, external_id := "e".toList,
              auth := { users1 := "b".toList, users2 := "%3Bcrf%3Dtok%3B".toList,
                        csrf_token := "tok".toList } }
  ∧ ("b".toList : Str) ≠ "a".toList :=
  ⟨rfl, by decide⟩

/-- C3 amended: `login` scans all `set-cookie` headers for the two
designated session-cookie names and, when a designated name occurs more
than once, uses the value of the LAST occurrence of that name; if
either name is absent from all headers, `login` fails with an
`ApiError` whose message is empty (naming no cookie). -/
theorem claim_c3_amended (phone : Str) (headers : List Str) (body : LoginResponce) :
    scanCookies none none headers =
      (lastMatch (fun v => startsWith v nr1) headers,
        lastMatch (fun v => startsWith v nr2) headers)
  ∧ (lastMatch (fun v => startsWith v nr1) headers = none →
      login phone headers body = .error ⟨[]⟩)
  ∧ (lastMatch (fun v => startsWith v nr2) headers = none →
      login phone headers body = .error ⟨[]⟩) :=
  ⟨scanCookies_none_none headers, fun h => login_missing_cookie (Or.inl h),
    fun h => login_missing_cookie (Or.inr h)⟩

/-- Witness for C3 amended: a response whose only header is not a
session cookie makes `login` fail with the empty-message error. -/
theorem claim_c3_witness :
    login ("p".toList) ["other=1".toList] bodyStub = .error ⟨[]⟩ :=
  (claim_c3_amended ("p".toList) ["other=1".toList] bodyStub).2.1 (by decide)

/-- C6 (code bug): the spec requires every onboarding failure to be
surfaced and the conversation returned to `Idle`, never crashing the
process; the code instead panics.  Evaluated at concrete failing
inputs: (1) a register error in the `ReceiveTitle` (AwaitingDisplayName)
state hits `panic!`; (2) a failing post-registration `login` in the
same state hits `.unwrap()`; (3) a failing `login` in the
`ReceiveSmsCode`/`AccountExist` path hits `.unwrap()`. -/
theorem claim_c6_panics :
    recive_title ("t".toList) "+1".toList ("0000".toList) (some ("Alice".toList))
        (.error ⟨"boom".toList⟩) [] bodyStub [] = .panicked ("boom".toList)
  ∧ recive_title ("t".toList) "+1".toList ("0000".toList) (some ("Alice".toList))
        (.ok ()) [] bodyStub [] = .panicked []
  ∧ receive_sms_code ("t".toList) "+1".toList (some ("0000".toList)) "AccountExist".toList
        [] bodyStub [] = .panicked [] :=
  ⟨rfl, rfl, rfl⟩

/-- Counterexample for C7: a login response carrying only the first
session cookie fails with `ApiError("")` — an EMPTY message that names
no cookie, contrary to the claim that the error names the missing
cookie and is structurally distinguishable from other errors. -/
theorem claim_c7_counterexample :
    login ("p".toList) ["nr1Users=a".toList] bodyStub = .error ⟨[]⟩
  ∧ (ApiError.mk []).msg = [] :=
  ⟨rfl, rfl⟩

/-- C7 amended: for every login response missing either designated
session cookie, `login` fails with the empty-message `ApiError` (so the
missing cookie is not named), and no account record is constructed on
that path. -/
theorem claim_c7_amended (phone : Str) (headers : List Str) (body : LoginResponce)
    (h : lastMatch (fun v => startsWith v nr1) headers = none ∨
      lastMatch (fun v => startsWith v nr2) headers = none) :
    login phone headers body = .error ⟨[]⟩
  ∧ ∀ u, login phone headers body ≠ .ok u := by
  have he : login phone headers body = .error ⟨[]⟩ := login_missing_cookie h
  exact ⟨he, fun u hu => by rw [he] at hu; exact Except.noConfusion hu⟩

/-- Witness for C7 amended: a cookieless login response fails with the
empty-message error. -/
theorem claim_c7_witness :
    login ("p".toList) [] bodyStub = .error ⟨[]⟩ :=
  (claim_c7_amended ("p".toList) [] bodyStub (Or.inl rfl)).1

/-- C8: from `Idle`, `/add title phone` with a successful SMS request
prompts for the code and moves to `ReceiveSmsCode{title, phone}`; with
a failing SMS request the error is reported and the dialogue exits back
to `Start` (Idle), never reaching `ReceiveSmsCode`; in particular a
backend response with `blockedInMinutes = 5` yields the five-minute
block error and leaves the conversation in `Start`. -/
theorem claim_c8 (title phone : Str) (r : Except ApiError Unit) :
    (r = .ok () → add_acconut title phone r =
      (["Creating accont ".toList ++ title ++ ". Sending sms code to ".toList ++ phone
          ++ "...\nWhat is it:".toList],
        .ReceiveSmsCode title phone))
  ∧ (∀ e, r = .error e → add_acconut title phone r =
      (["Error sending sms message:".toList ++ apiErrorDebug e], .Start))
  ∧ send_sms_code { error_message := [], is_sms_sent := false, is_blocked := false,
                    blocked_in_minutes := 5 }
      = .error ⟨"This number is blocked for 5 minutes!".toList⟩
  ∧ add_acconut title phone
      (send_sms_code { error_message := [], is_sms_sent := false, is_blocked := false,
                       blocked_in_minutes := 5 })
      = (["Error sending sms message:".toList
            ++ apiErrorDebug ⟨"This number is blocked for 5 minutes!".toList⟩], .Start) := by
  refine ⟨?_, ?_, by decide, ?_⟩
  · intro h; subst h; rfl
  · intro e h; subst h; rfl
  · have hsend : send_sms_code ⟨[], false, false, 5⟩
        = .error ⟨"This number is blocked for 5 minutes!".toList⟩ := by decide
    rw [show ({ error_message := [], is_sms_sent := false, is_blocked := false,
                blocked_in_minutes := 5 } : SmsVerificationResponce) = ⟨[], false, false, 5⟩
          from rfl, hsend]
    rfl

/-- Witness for C8: the spec's example `/add shop1 +1555` with a
successful SMS request lands in `ReceiveSmsCode{shop1, +1555}`. -/
theorem claim_c8_witness :
    add_acconut ("shop1".toList) "+1555".toList (.ok ())
      = (["Creating accont ".toList ++ "shop1".toList ++ ". Sending sms code to ".toList
            ++ "+1555".toList ++ "...\nWhat is it:".toList],
          .ReceiveSmsCode ("shop1".toList) "+1555".toList) :=
  (claim_c8 ("shop1".toList) "+1555".toList (.ok ())).1 rfl

end Bied
